import Mathlib

/-!
Shallow embedding of the script
`Finacial Domain/Prediction of Power Consumption/code.py`
(pandas + scikit-learn power-consumption regression workflow),
with theorems settling the specification claims about it.
-/

namespace PowerConsumption

/-! ## Column layout and the column classifier (code.py lines 32-37) -/

/-- The pandas dtypes that occur in this workflow. -/
inductive Dtype
  | float64
  | int64
  | object
  | bool
  | datetime64
deriving DecidableEq, Repr

/-- A dataframe column: its name and its declared dtype. -/
structure Column where
  name : String
  dtype : Dtype
deriving DecidableEq, Repr

/-- The column names selected by `data.select_dtypes(include=incl).columns`. -/
def select_dtypes (incl : List Dtype) (cols : List Column) : List String :=
  (cols.filter (fun c => decide (c.dtype ∈ incl))).map Column.name

/-- Line 36: `num_cols = data.select_dtypes(include=['float64', 'int64']).columns.drop(target)`. -/
def num_cols (cols : List Column) (target : String) : List String :=
  (select_dtypes [Dtype.float64, Dtype.int64] cols).filter (fun n => decide (n ≠ target))

/-- Line 37: `cat_cols = data.select_dtypes(include=['object']).columns`. -/
def cat_cols (cols : List Column) : List String :=
  select_dtypes [Dtype.object] cols

/-- Line 33: `features = data.columns.drop([target, 'timestamp'])`. -/
def features (cols : List Column) (target : String) : List String :=
  (cols.map Column.name).filter (fun n => decide (n ≠ target ∧ n ≠ "timestamp"))

/-- Lines 51-55: the `ColumnTransformer` receives the numeric and categorical column
lists; its default `remainder='drop'` discards every column outside those two lists. -/
def preprocessor_used_columns (cols : List Column) (target : String) : List String :=
  num_cols cols target ++ cat_cols cols

theorem mem_num_cols {cols : List Column} {target n : String} :
    n ∈ num_cols cols target ↔
      (∃ c ∈ cols, c.name = n ∧ (c.dtype = Dtype.float64 ∨ c.dtype = Dtype.int64)) ∧
        n ≠ target := by
  simp only [num_cols, select_dtypes, List.mem_filter, List.mem_map, decide_eq_true_eq,
    List.mem_cons, List.not_mem_nil, or_false]
  aesop

theorem mem_cat_cols {cols : List Column} {n : String} :
    n ∈ cat_cols cols ↔ ∃ c ∈ cols, c.name = n ∧ c.dtype = Dtype.object := by
  simp only [cat_cols, select_dtypes, List.mem_filter, List.mem_map, decide_eq_true_eq,
    List.mem_cons, List.not_mem_nil, or_false]
  aesop

theorem mem_features {cols : List Column} {target n : String} :
    n ∈ features cols target ↔
      (∃ c ∈ cols, c.name = n) ∧ n ≠ target ∧ n ≠ "timestamp" := by
  simp only [features, List.mem_filter, List.mem_map, decide_eq_true_eq]

/-- A concrete post-derivation column layout containing a boolean column
(`read_csv` infers dtype `bool` for a True/False column). -/
def colsWithBool : List Column :=
  [⟨"consumption", Dtype.float64⟩, ⟨"timestamp", Dtype.datetime64⟩,
   ⟨"holiday", Dtype.bool⟩, ⟨"temperature", Dtype.float64⟩]

/-- C4 counterexample: in a dataset with a boolean column `holiday`, that column is
neither the target nor the raw timestamp, yet the classifier puts it in neither the
numeric group (selected dtypes are only float64/int64) nor the categorical group
(selected dtype is only object), contradicting the claimed exhaustive partition. -/
theorem C4_counterexample :
    (⟨"holiday", Dtype.bool⟩ : Column) ∈ colsWithBool ∧
      "holiday" ≠ "consumption" ∧ "holiday" ≠ "timestamp" ∧
      "holiday" ∉ num_cols colsWithBool "consumption" ∧
      "holiday" ∉ cat_cols colsWithBool := by
  refine ⟨by decide, by decide, by decide, ?_, ?_⟩ <;> decide

/-- C4 (amended): restricted to columns whose dtype is float64, int64 or object, the
classifier does partition: every such non-target column lands in exactly one of the
numeric and categorical groups; columns of any other dtype (bool, datetime64) are
placed in neither group, as the counterexample shows. -/
theorem C4_partition (cols : List Column) (target : String)
    (hnd : (cols.map Column.name).Nodup) (c : Column) (hc : c ∈ cols)
    (hdt : c.dtype = Dtype.float64 ∨ c.dtype = Dtype.int64 ∨ c.dtype = Dtype.object)
    (hnt : c.name ≠ target) :
    (c.name ∈ num_cols cols target ∨ c.name ∈ cat_cols cols) ∧
      ¬(c.name ∈ num_cols cols target ∧ c.name ∈ cat_cols cols) := by
  have hinj := List.inj_on_of_nodup_map hnd
  constructor
  · rcases hdt with h | h | h
    · exact Or.inl (mem_num_cols.mpr ⟨⟨c, hc, rfl, Or.inl h⟩, hnt⟩)
    · exact Or.inl (mem_num_cols.mpr ⟨⟨c, hc, rfl, Or.inr h⟩, hnt⟩)
    · exact Or.inr (mem_cat_cols.mpr ⟨c, hc, rfl, h⟩)
  · rintro ⟨hnum, hcat⟩
    rcases mem_num_cols.mp hnum with ⟨⟨c1, hc1, hn1, hd1⟩, -⟩
    rcases mem_cat_cols.mp hcat with ⟨c2, hc2, hn2, hd2⟩
    have : c1 = c2 := hinj hc1 hc2 (hn1.trans hn2.symm)
    subst this
    rcases hd1 with h | h <;> simp [h] at hd2

/-- Witness for `C4_partition` at a concrete layout. -/
theorem C4_partition_witness :
    ((colsWithBool.map Column.name).Nodup ∧
        (⟨"temperature", Dtype.float64⟩ : Column) ∈ colsWithBool ∧
        ((⟨"temperature", Dtype.float64⟩ : Column).dtype = Dtype.float64 ∨
          (⟨"temperature", Dtype.float64⟩ : Column).dtype = Dtype.int64 ∨
          (⟨"temperature", Dtype.float64⟩ : Column).dtype = Dtype.object) ∧
        "temperature" ≠ "consumption") ∧
      (("temperature" ∈ num_cols colsWithBool "consumption" ∨
          "temperature" ∈ cat_cols colsWithBool) ∧
        ¬("temperature" ∈ num_cols colsWithBool "consumption" ∧
          "temperature" ∈ cat_cols colsWithBool)) :=
  ⟨⟨by decide, by decide, Or.inl rfl, by decide⟩,
    C4_partition colsWithBool "consumption" (by decide) ⟨"temperature", Dtype.float64⟩
      (by decide) (Or.inl rfl) (by decide)⟩

/-- C9: a column whose dtype is neither float64/int64 nor object (for example bool or
datetime64) and which is not the target or the raw timestamp is listed in the feature
set `features` handed to the split, yet belongs to neither classified group, so the
`ColumnTransformer` (default remainder drop) silently excludes it from the model's
input. -/
theorem C9_silently_dropped (cols : List Column) (target : String)
    (hnd : (cols.map Column.name).Nodup) (c : Column) (hc : c ∈ cols)
    (hf : c.dtype ≠ Dtype.float64) (hi : c.dtype ≠ Dtype.int64)
    (ho : c.dtype ≠ Dtype.object)
    (hnt : c.name ≠ target) (hts : c.name ≠ "timestamp") :
    c.name ∈ features cols target ∧ c.name ∉ preprocessor_used_columns cols target := by
  have hinj := List.inj_on_of_nodup_map hnd
  refine ⟨mem_features.mpr ⟨⟨c, hc, rfl⟩, hnt, hts⟩, ?_⟩
  intro hmem
  rcases List.mem_append.mp hmem with hnum | hcat
  · rcases mem_num_cols.mp hnum with ⟨⟨c1, hc1, hn1, hd1⟩, -⟩
    have : c1 = c := hinj hc1 hc hn1
    subst this
    rcases hd1 with h | h
    · exact hf h
    · exact hi h
  · rcases mem_cat_cols.mp hcat with ⟨c2, hc2, hn2, hd2⟩
    have : c2 = c := hinj hc2 hc hn2
    subst this
    exact ho hd2

/-- Witness for `C9_silently_dropped`: the boolean `holiday` column of the concrete
layout is in the feature list but not among the columns the transformer keeps. -/
theorem C9_silently_dropped_witness :
    ((colsWithBool.map Column.name).Nodup ∧
        (⟨"holiday", Dtype.bool⟩ : Column) ∈ colsWithBool) ∧
      ("holiday" ∈ features colsWithBool "consumption" ∧
        "holiday" ∉ preprocessor_used_columns colsWithBool "consumption") :=
  ⟨⟨by decide, by decide⟩,
    C9_silently_dropped colsWithBool "consumption" (by decide) ⟨"holiday", Dtype.bool⟩
      (by decide) (by decide) (by decide) (by decide) (by decide) (by decide)⟩

/-! ## One-hot encoding (code.py lines 45-48) -/

/-- The fit step of `OneHotEncoder`: the categories retained for a column are the
sorted distinct values seen during fitting. -/
def one_hot_fit (seen : List String) : List String :=
  (seen.dedup).mergeSort (fun a b => decide (a ≤ b))

/-- The transform step of `OneHotEncoder(handle_unknown='ignore')` on a single value
of one categorical column: the indicator vector over the fitted categories. With
`handle_unknown='ignore'` a value outside the fitted categories encodes to all
zeros instead of raising; the function is total. -/
def one_hot_transform (categories : List String) (v : String) : List Nat :=
  categories.map (fun c => if c = v then 1 else 0)

/-- C5: a categorical value not seen during fitting is encoded by
`OneHotEncoder(handle_unknown='ignore')` as the all-zero indicator vector over the
fitted categories, and the encoding is a total function (it never raises). -/
theorem C5_unseen_category_encodes_all_zero (seen : List String) (v : String)
    (h : v ∉ seen) :
    one_hot_transform (one_hot_fit seen) v =
      List.replicate (one_hot_fit seen).length 0 := by
  have hall : ∀ x ∈ one_hot_transform (one_hot_fit seen) v, x = 0 := by
    intro x hx
    rcases List.mem_map.mp hx with ⟨c, hc, hcx⟩
    have hcs : c ∈ seen := by
      have hm : c ∈ seen.dedup := (List.mem_mergeSort).mp hc
      exact List.mem_dedup.mp hm
    have hne : c ≠ v := fun e => h (e ▸ hcs)
    simpa [hne] using hcx.symm
  have hrep := List.eq_replicate_of_mem hall
  have hlen : (one_hot_transform (one_hot_fit seen) v).length =
      (one_hot_fit seen).length := List.length_map _ _
  rwa [hlen] at hrep

/-- Witness for `C5_unseen_category_encodes_all_zero` at a concrete fit set and a
concrete unseen value. -/
theorem C5_unseen_category_witness :
    "monsoon" ∉ ["summer", "winter", "summer"] ∧
      one_hot_transform (one_hot_fit ["summer", "winter", "summer"]) "monsoon" =
        List.replicate (one_hot_fit ["summer", "winter", "summer"]).length 0 :=
  ⟨by decide, C5_unseen_category_encodes_all_zero ["summer", "winter", "summer"]
    "monsoon" (by decide)⟩

/-! ## Datetime feature derivation (code.py lines 23-29) -/

/-- A parsed timestamp together with the components the script reads off it via
the `dt` accessors. -/
structure Timestamp where
  year : Int
  month : Int
  day : Int
  hour : Int
  dayofweek : Int
deriving DecidableEq, Repr

/-- A raw input row: its pandas index label, the raw timestamp cell and the target. -/
structure RawRow where
  idx : Nat
  timestamp : String
  consumption : ℚ
deriving DecidableEq

/-- A row after the dropna and the five `dt` accessor assignments. -/
structure DerivedRow where
  idx : Nat
  ts : Timestamp
  consumption : ℚ
  year : Int
  month : Int
  day : Int
  hour : Int
  dayofweek : Int
deriving DecidableEq

/-- The derived row produced from `r` once its timestamp cell parsed to `t`. -/
def derive_row (r : RawRow) (t : Timestamp) : DerivedRow :=
  { idx := r.idx, ts := t, consumption := r.consumption,
    year := t.year, month := t.month, day := t.day, hour := t.hour,
    dayofweek := t.dayofweek }

/-- Lines 23-29: `pd.to_datetime(..., errors='coerce')` maps each timestamp cell
through the library's parser (`parse` here), turning failures into NaT (`none`);
`dropna(subset=['timestamp'])` removes the NaT rows; the five `dt` accessors then
append the calendar fields to every surviving row. -/
def extract_datetime_features (parse : String → Option Timestamp) (rows : List RawRow) :
    List DerivedRow :=
  rows.filterMap (fun r => (parse r.timestamp).map (derive_row r))

/-- C6: after derivation the dataset holds exactly the rows whose timestamp parsed:
every output row stems from an input row with a parsable timestamp and carries the
five calendar fields of that timestamp; every parsable input row appears; and no
output row has the index of an input row whose timestamp failed to parse. -/
theorem C6_unparsable_rows_dropped (parse : String → Option Timestamp)
    (rows : List RawRow) (hnd : (rows.map RawRow.idx).Nodup) :
    (∀ d ∈ extract_datetime_features parse rows,
        ∃ r ∈ rows, r.idx = d.idx ∧ parse r.timestamp = some d.ts ∧
          d.consumption = r.consumption ∧ d.year = d.ts.year ∧ d.month = d.ts.month ∧
          d.day = d.ts.day ∧ d.hour = d.ts.hour ∧ d.dayofweek = d.ts.dayofweek) ∧
      (∀ r ∈ rows, ∀ t, parse r.timestamp = some t →
        derive_row r t ∈ extract_datetime_features parse rows) ∧
      (∀ r ∈ rows, parse r.timestamp = none →
        ∀ d ∈ extract_datetime_features parse rows, d.idx ≠ r.idx) := by
  have hinj := List.inj_on_of_nodup_map hnd
  refine ⟨?_, ?_, ?_⟩
  · intro d hd
    rcases List.mem_filterMap.mp hd with ⟨r, hr, hfr⟩
    rcases Option.map_eq_some'.mp hfr with ⟨t, hpt, hdt⟩
    subst hdt
    exact ⟨r, hr, rfl, hpt, rfl, rfl, rfl, rfl, rfl, rfl⟩
  · intro r hr t hpt
    exact List.mem_filterMap.mpr ⟨r, hr, by rw [hpt]; rfl⟩
  · intro r hr hnone d hd hidx
    rcases List.mem_filterMap.mp hd with ⟨r1, hr1, hfr⟩
    rcases Option.map_eq_some'.mp hfr with ⟨t, hpt, hdt⟩
    have hri : r1.idx = r.idx := by rw [← hdt] at hidx; exact hidx
    have : r1 = r := hinj hr1 hr hri
    subst this
    rw [hnone] at hpt
    exact Option.noConfusion hpt

/-- Concrete parser used by the C6 witness: only one fixed timestamp string parses. -/
def parse0 (s : String) : Option Timestamp :=
  if s = "2013-01-01 00:00:00" then some ⟨2013, 1, 1, 0, 1⟩ else none

/-- Concrete rows used by the C6 witness: one parsable, one not. -/
def rows0 : List RawRow :=
  [⟨0, "2013-01-01 00:00:00", 120⟩, ⟨1, "not a date", 95⟩]

/-- Witness for `C6_unparsable_rows_dropped` at a concrete parser and row list. -/
theorem C6_unparsable_rows_dropped_witness :
    (rows0.map RawRow.idx).Nodup ∧
      ((∀ d ∈ extract_datetime_features parse0 rows0,
          ∃ r ∈ rows0, r.idx = d.idx ∧ parse0 r.timestamp = some d.ts ∧
            d.consumption = r.consumption ∧ d.year = d.ts.year ∧ d.month = d.ts.month ∧
            d.day = d.ts.day ∧ d.hour = d.ts.hour ∧ d.dayofweek = d.ts.dayofweek) ∧
        (∀ r ∈ rows0, ∀ t, parse0 r.timestamp = some t →
          derive_row r t ∈ extract_datetime_features parse0 rows0) ∧
        (∀ r ∈ rows0, parse0 r.timestamp = none →
          ∀ d ∈ extract_datetime_features parse0 rows0, d.idx ≠ r.idx)) :=
  ⟨by decide, C6_unparsable_rows_dropped parse0 rows0 (by decide)⟩

/-! ## Train/test split (code.py line 74) -/

/-- A linear congruential key; a deterministic stand-in for the numpy
`RandomState(seed)` stream that drives the shuffle inside `train_test_split`. -/
def lcg_key (seed i : Nat) : Nat :=
  (1664525 * (seed + 31 * i) + 1013904223) % 4294967296

/-- The seeded shuffle behind `train_test_split(random_state=seed)`: a deterministic
permutation of the input rows, obtained by sorting positions by a pseudo-random key
derived from the seed. -/
def shuffled {α : Type _} (seed : Nat) (l : List α) : List α :=
  ((l.enum).mergeSort fun a b => decide (lcg_key seed a.1 ≤ lcg_key seed b.1)).map
    Prod.snd

theorem shuffled_perm {α : Type _} (seed : Nat) (l : List α) :
    (shuffled seed l).Perm l := by
  have h1 := List.mergeSort_perm l.enum
    fun a b => decide (lcg_key seed a.1 ≤ lcg_key seed b.1)
  have h2 := h1.map Prod.snd
  rwa [List.enum_map_snd] at h2

/-- The scikit-learn test-block size for `test_size=0.2`: the ceiling of `0.2 * n`. -/
def n_test (n : Nat) : Nat := (n + 4) / 5

/-- Line 74: `train_test_split(..., test_size=0.2, random_state=42)` on the row
list: the seeded shuffle is cut into the test block (the first `ceil(0.2 * n)`
shuffled rows, as `ShuffleSplit` draws them) and the train block (the rest).
The pair is (train, test). -/
def train_test_split {α : Type _} (seed : Nat) (l : List α) : List α × List α :=
  ((shuffled seed l).drop (n_test l.length), (shuffled seed l).take (n_test l.length))

/-- The conjunction of split properties asserted by claim C7: determinism,
disjointness of train and test, joint coverage of all rows, and the 20% test
proportion (with ceiling rounding, exact whenever 5 divides the row count). -/
def SplitOk {α : Type _} (seed : Nat) (l : List α) : Prop :=
  train_test_split seed l = train_test_split seed l ∧
    (∀ x ∈ (train_test_split seed l).1, x ∉ (train_test_split seed l).2) ∧
    (∀ x, x ∈ l ↔
      x ∈ (train_test_split seed l).1 ∨ x ∈ (train_test_split seed l).2) ∧
    (train_test_split seed l).2.length = (l.length + 4) / 5 ∧
    (5 ∣ l.length → 5 * (train_test_split seed l).2.length = l.length)

/-- C7: for a fixed seed and fixed rows the split is deterministic, train and test
are disjoint, together they cover all input rows, and the test block holds the 20%
proportion of the rows (ceiling rounding; exactly 20% when 5 divides the count). -/
theorem C7_split_properties {α : Type _} (seed : Nat) (l : List α) (h : l.Nodup) :
    SplitOk seed l := by
  have hperm := shuffled_perm seed l
  have hnd : (shuffled seed l).Nodup := h.perm hperm.symm
  have hlen : (shuffled seed l).length = l.length := hperm.length_eq
  have hle : n_test l.length ≤ l.length := by unfold n_test; omega
  refine ⟨rfl, ?_, ?_, ?_, ?_⟩
  · intro x hxd hxt
    exact (List.disjoint_take_drop hnd le_rfl) hxt hxd
  · intro x
    rw [← hperm.mem_iff]
    conv_lhs => rw [← List.take_append_drop (n_test l.length) (shuffled seed l)]
    simp only [train_test_split, List.mem_append]
    exact or_comm
  · show (List.take _ _).length = _
    rw [List.length_take, hlen]
    unfold n_test
    omega
  · intro hdvd
    show 5 * (List.take _ _).length = _
    rw [List.length_take, hlen]
    rcases hdvd with ⟨k, hk⟩
    unfold n_test
    omega

/-- Witness for `C7_split_properties` at the fixed seed 42 and a concrete row list. -/
theorem C7_split_properties_witness :
    ([0, 1, 2, 3, 4, 5] : List Nat).Nodup ∧ SplitOk 42 ([0, 1, 2, 3, 4, 5] : List Nat) :=
  ⟨by decide, C7_split_properties 42 [0, 1, 2, 3, 4, 5] (by decide)⟩

/-! ## Test-set evaluation (code.py lines 85-89) -/

/-- A row as seen by the evaluation stage: its index and its target value. -/
structure EvalRow where
  idx : Nat
  consumption : ℚ
deriving DecidableEq

/-- scikit-learn `mean_squared_error`: the average of the squared componentwise
differences between the true and predicted value lists. -/
def mean_squared_error (yTrue yPred : List ℚ) : ℚ :=
  (List.zipWith (fun a p => (a - p) ^ 2) yTrue yPred).sum / yTrue.length

/-- Lines 74 and 85: `y_pred = best_model.predict(X_test)` followed by
`mse = mean_squared_error(y_test, y_pred)`; `predict` abstracts the fitted model's
pointwise prediction. -/
def reported_mse (seed : Nat) (predict : EvalRow → ℚ) (rows : List EvalRow) : ℚ :=
  mean_squared_error ((train_test_split seed rows).2.map EvalRow.consumption)
    ((train_test_split seed rows).2.map predict)

/-- C8: the mean squared error the evaluator reports equals the arithmetic mean of
the squared (prediction − actual) differences taken over exactly the rows of the
test split and no others. -/
theorem C8_mse_over_test_rows (seed : Nat) (predict : EvalRow → ℚ)
    (rows : List EvalRow) :
    reported_mse seed predict rows =
      ((train_test_split seed rows).2.map
          (fun r => (predict r - r.consumption) ^ 2)).sum /
        (((train_test_split seed rows).2.length : ℚ)) := by
  unfold reported_mse mean_squared_error
  rw [List.zipWith_map, List.zipWith_same, List.length_map]
  have hf : (fun r : EvalRow => (r.consumption - predict r) ^ 2) =
      fun r => (predict r - r.consumption) ^ 2 := by
    funext r
    ring
  rw [hf]

/-! ## Parameter grid and grid search (code.py lines 58-81) -/

/-- The three estimator variants offered in the parameter grid (line 70). -/
inductive ModelKind
  | linearRegression
  | ridge
  | lasso
deriving DecidableEq, Repr

/-- The keyword parameters each estimator's `set_params` accepts;
`BaseEstimator.set_params` raises ValueError on any other keyword. Plain
least-squares (`LinearRegression`) has no regularization strength `alpha`. -/
def valid_params : ModelKind → List String
  | ModelKind.linearRegression => ["copy_X", "fit_intercept", "n_jobs", "positive"]
  | ModelKind.ridge =>
      ["alpha", "copy_X", "fit_intercept", "max_iter", "positive", "random_state",
       "solver", "tol"]
  | ModelKind.lasso =>
      ["alpha", "copy_X", "fit_intercept", "max_iter", "positive", "precompute",
       "random_state", "selection", "tol", "warm_start"]

/-- One cell of the parameter grid: polynomial expansion degree, estimator variant
and regularization strength. -/
structure GridCell where
  degree : Nat
  model : ModelKind
  alpha : ℚ
deriving DecidableEq, Repr

/-- Lines 64-69: `param_grid` is a single dict, so `ParameterGrid` enumerates the
full cross product {1,2,3} x {LinearRegression, Ridge, Lasso} x {0.1, 1.0, 10.0}. -/
def param_grid_cells : List GridCell :=
  [1, 2, 3].flatMap fun d =>
    [ModelKind.linearRegression, ModelKind.ridge, ModelKind.lasso].flatMap fun m =>
      [(1 : ℚ) / 10, 1, 10].map fun a => ⟨d, m, a⟩

/-- `Pipeline.set_params` for one grid cell: the `model` step is replaced by the
cell's estimator, then the nested `model__alpha` is forwarded to that estimator's
`set_params`, which raises ValueError when the estimator does not accept `alpha`. -/
def set_cell_params (cell : GridCell) : Except String GridCell :=
  if "alpha" ∈ valid_params cell.model then Except.ok cell
  else Except.error "ValueError: Invalid parameter alpha for estimator LinearRegression"

/-- The evaluation loop of `GridSearchCV.fit`: every grid cell is parameterised via
`set_cell_params` and then cross-validation scored; an exception raised while
setting parameters is not caught by the error_score machinery and aborts the whole
fit. `score` abstracts the 5-fold mean r2 of one successfully parameterised cell. -/
def eval_grid_cells {β : Type _} (score : GridCell → β → ℚ) (train : β) :
    List GridCell → Except String (List (GridCell × ℚ))
  | [] => Except.ok []
  | c :: cs =>
    match set_cell_params c with
    | Except.error e => Except.error e
    | Except.ok c1 =>
      match eval_grid_cells score train cs with
      | Except.error e => Except.error e
      | Except.ok rest => Except.ok ((c1, score c1 train) :: rest)

/-- Lines 78-81: `GridSearchCV(pipeline, param_grid, cv=5, scoring='r2').fit`
evaluates every cell, selects the first cell attaining the maximal mean score, and
refits it on the full training split (`refit` abstracts that final fit). -/
def grid_search_fit {β γ : Type _} (score : GridCell → β → ℚ)
    (refit : GridCell → β → γ) (train : β) : Except String γ :=
  match eval_grid_cells score train param_grid_cells with
  | Except.error e => Except.error e
  | Except.ok [] => Except.error "empty grid"
  | Except.ok (s :: ss) =>
    Except.ok (refit (ss.foldl (fun b x => if b.2 < x.2 then x else b) s).1 train)

/-- C1 (code bug): because `param_grid` couples `model__alpha` with all three
estimator variants in one dict, evaluating a plain least-squares cell calls
`LinearRegression.set_params(alpha=...)`, which raises ValueError; the grid-search
fit aborts with that error for every scorer, refitter and training split, so the
full cross product is never evaluated and no best combination is refit. -/
theorem C1_grid_search_aborts {β γ : Type _} (score : GridCell → β → ℚ)
    (refit : GridCell → β → γ) (train : β) :
    grid_search_fit score refit train =
      Except.error "ValueError: Invalid parameter alpha for estimator LinearRegression" :=
  rfl

/-! ## Fitted preprocessing statistics (code.py lines 39-55) -/

/-- A training-stage row: its index, the numeric feature cells (possibly missing),
the categorical feature cells (possibly missing) and the target. -/
structure TrainRow where
  idx : Nat
  nums : List (Option ℚ)
  cats : List (Option String)
  consumption : ℚ
deriving DecidableEq

/-- The median (numpy convention: midpoint of the two middle order statistics),
the statistic learned by `SimpleImputer(strategy='median')`. -/
def median (l : List ℚ) : ℚ :=
  let s := l.mergeSort fun a b => decide (a ≤ b)
  if s.length % 2 = 1 then s.getD (s.length / 2) 0
  else (s.getD (s.length / 2 - 1) 0 + s.getD (s.length / 2) 0) / 2

/-- The most frequent value, ties resolved towards the smallest as scipy's mode
does; the statistic learned by `SimpleImputer(strategy='most_frequent')`. -/
def most_frequent (l : List String) : String :=
  let cand := (l.dedup).mergeSort fun a b => decide (a ≤ b)
  cand.foldl (fun best c => if l.count best < l.count c then c else best)
    (cand.headD "")

/-- The mean, learned by `StandardScaler`. -/
def mean (l : List ℚ) : ℚ := l.sum / l.length

/-- The variance, learned by `StandardScaler` (its scale is the square root). -/
def variance (l : List ℚ) : ℚ := (l.map fun x => (x - mean l) ^ 2).sum / l.length

/-- The j-th numeric column of a training block. -/
def num_column (train : List TrainRow) (j : Nat) : List (Option ℚ) :=
  train.map fun r => r.nums.getD j none

/-- The j-th categorical column of a training block. -/
def cat_column (train : List TrainRow) (j : Nat) : List (Option String) :=
  train.map fun r => r.cats.getD j none

/-- The non-missing values of a column, which are what the imputers see. -/
def present {α : Type _} (col : List (Option α)) : List α := col.filterMap id

/-- Median imputation of a numeric column. -/
def impute_median (col : List (Option ℚ)) : List ℚ :=
  col.map fun c => c.getD (median (present col))

/-- Most-frequent imputation of a categorical column. -/
def impute_most_frequent (col : List (Option String)) : List String :=
  col.map fun c => c.getD (most_frequent (present col))

/-- Everything the preprocessor learns during fit: the imputation medians and
modes, the scaling means and variances, and the known one-hot categories. -/
structure FittedPreprocessor where
  medians : List ℚ
  modes : List String
  means : List ℚ
  variances : List ℚ
  categories : List (List String)
deriving DecidableEq

/-- Lines 39-55 at fit time, on a training block with `nNum` numeric and `nCat`
categorical columns. -/
def fit_preprocessor (nNum nCat : Nat) (train : List TrainRow) : FittedPreprocessor :=
  { medians := (List.range nNum).map fun j => median (present (num_column train j))
    modes := (List.range nCat).map fun j => most_frequent (present (cat_column train j))
    means := (List.range nNum).map fun j => mean (impute_median (num_column train j))
    variances :=
      (List.range nNum).map fun j => variance (impute_median (num_column train j))
    categories :=
      (List.range nCat).map fun j =>
        one_hot_fit (impute_most_frequent (cat_column train j)) }

/-- The fit stage of the script on loaded rows: cut off the training block
(line 74), then fit the preprocessor statistics and run the grid search on that
block alone (line 79); the test block is never consulted here. -/
def fit_stage {γ : Type _} (nNum nCat : Nat) (score : GridCell → List TrainRow → ℚ)
    (refit : GridCell → List TrainRow → γ) (seed : Nat) (rows : List TrainRow) :
    FittedPreprocessor × Except String γ :=
  (fit_preprocessor nNum nCat (train_test_split seed rows).1,
    grid_search_fit score refit (train_test_split seed rows).1)

/-- C10: the fitted preprocessing statistics (imputation medians and modes, scaling
parameters, known one-hot categories) and the grid-search outcome are determined by
the training split alone: two runs whose training blocks coincide — however their
test rows differ — produce identical fitted artifacts. -/
theorem C10_fit_depends_only_on_train {γ : Type _} (nNum nCat : Nat)
    (score : GridCell → List TrainRow → ℚ) (refit : GridCell → List TrainRow → γ)
    (seed1 seed2 : Nat) (rows1 rows2 : List TrainRow)
    (h : (train_test_split seed1 rows1).1 = (train_test_split seed2 rows2).1) :
    fit_stage nNum nCat score refit seed1 rows1 =
      fit_stage nNum nCat score refit seed2 rows2 := by
  unfold fit_stage
  rw [h]

/-- A concrete training row for the C10 witness. -/
def trow_a : TrainRow := ⟨0, [some 1], [some "x"], 100⟩

/-- A second, different concrete row for the C10 witness. -/
def trow_b : TrainRow := ⟨1, [some 2], [some "y"], 200⟩

/-- Witness for `C10_fit_depends_only_on_train`: two one-row datasets whose
training blocks are both empty (the single row goes to the 20% test block) but
whose test rows differ yield identical fitted artifacts. -/
theorem C10_fit_depends_only_on_train_witness :
    (train_test_split 42 [trow_a]).1 = (train_test_split 7 [trow_b]).1 ∧
      fit_stage 1 1 (fun _ _ => 0) (fun c _ => c) 42 [trow_a] =
        fit_stage 1 1 (fun _ _ => 0) (fun c _ => c) 7 [trow_b] :=
  ⟨by simp [train_test_split, shuffled, n_test, List.mergeSort_singleton],
    C10_fit_depends_only_on_train 1 1 (fun _ _ => 0) (fun c _ => c) 42 7
      [trow_a] [trow_b]
      (by simp [train_test_split, shuffled, n_test, List.mergeSort_singleton])⟩

/-! ## Prediction merge (code.py lines 123-127) -/

/-- A pandas row label: either an original integer `RangeIndex` label or, after
`set_index('timestamp')`, a timestamp label. -/
inductive Label
  | ofNat (n : Nat)
  | ofTs (t : Timestamp)
deriving DecidableEq, Repr

/-- The pandas assignment `data.loc[keys, col] = vals` on an existing column: when
every key label occurs in the row index, the column cells at those labels receive
the corresponding values; when any key label is absent, the assignment raises
KeyError instead of enlarging or skipping. -/
def loc_set (index : List Label) (col : List (Option ℚ)) (keys : List Label)
    (vals : List ℚ) : Except String (List (Option ℚ)) :=
  if keys.all fun k => decide (k ∈ index) then
    Except.ok ((index.zip col).map fun ic =>
      match (keys.zip vals).find? fun kv => decide (kv.1 = ic.1) with
      | some kv => some kv.2
      | none => ic.2)
  else Except.error "KeyError: not in index"

/-- Lines 123-127: `data.set_index('timestamp', inplace=True)` replaces the integer
row labels by the timestamps, `data['predicted_consumption'] = np.nan` creates the
all-missing column, and `data.loc[X_test.index, 'predicted_consumption'] = y_pred`
assigns the predictions at the test block's original integer labels. -/
def merge_predictions (seed : Nat) (predict : DerivedRow → ℚ)
    (rows : List DerivedRow) : Except String (List (Option ℚ)) :=
  loc_set (rows.map fun r => Label.ofTs r.ts) (List.replicate rows.length none)
    ((train_test_split seed rows).2.map fun r => Label.ofNat r.idx)
    ((train_test_split seed rows).2.map predict)

/-- C2 (code bug): by the time the prediction column is assigned, the dataframe is
indexed by timestamps while `X_test.index` still holds the original integer labels;
for every dataset with at least one row the test block is nonempty, none of its
integer labels occur in the timestamp index, and the `.loc` assignment raises
KeyError instead of merging the predictions back. -/
theorem C2_merge_raises_keyerror (seed : Nat) (predict : DerivedRow → ℚ)
    (rows : List DerivedRow) (h : rows ≠ []) :
    merge_predictions seed predict rows = Except.error "KeyError: not in index" := by
  have hlen : (shuffled seed rows).length = rows.length := (shuffled_perm seed rows).length_eq
  have hpos : 0 < rows.length := List.length_pos.mpr h
  have htlen : (train_test_split seed rows).2.length = n_test rows.length := by
    show (List.take _ _).length = _
    rw [List.length_take, hlen]
    unfold n_test
    omega
  have htpos : 0 < (train_test_split seed rows).2.length := by
    rw [htlen]
    unfold n_test
    omega
  obtain ⟨r, hr⟩ := List.exists_mem_of_length_pos htpos
  have hkey : Label.ofNat r.idx ∈ (train_test_split seed rows).2.map
      fun r => Label.ofNat r.idx := List.mem_map_of_mem _ hr
  have hnotin : Label.ofNat r.idx ∉ rows.map fun r => Label.ofTs r.ts := by
    intro hmem
    rcases List.mem_map.mp hmem with ⟨r1, -, he⟩
    exact Label.noConfusion he
  have hall : ¬((train_test_split seed rows).2.map fun r => Label.ofNat r.idx).all
      (fun k => decide (k ∈ rows.map fun r => Label.ofTs r.ts)) = true := by
    rw [List.all_eq_true]
    intro hforall
    exact hnotin (of_decide_eq_true (hforall _ hkey))
  unfold merge_predictions loc_set
  rw [if_neg hall]

/-- A concrete one-row post-derivation dataset for the C2 witness. -/
def drows0 : List DerivedRow :=
  [⟨0, ⟨2013, 1, 1, 0, 1⟩, 120, 2013, 1, 1, 0, 1⟩]

/-- Witness for `C2_merge_raises_keyerror` at a concrete dataset and predictor. -/
theorem C2_merge_raises_keyerror_witness :
    drows0 ≠ [] ∧
      merge_predictions 42 (fun _ => 0) drows0 =
        Except.error "KeyError: not in index" :=
  ⟨by decide, C2_merge_raises_keyerror 42 (fun _ => 0) drows0 (by decide)⟩

/-! ## Feature importance report (code.py lines 104-110) -/

/-- All exponent vectors over `n` variables with total degree at most `d`. -/
def exponent_vectors : Nat → Nat → List (List Nat)
  | 0, _ => [[]]
  | n + 1, d =>
    (List.range (d + 1)).flatMap fun e =>
      (exponent_vectors n (d - e)).map fun v => e :: v

/-- The number of output features of `PolynomialFeatures(degree=d,
include_bias=False)` on `n` input features: one monomial per exponent vector with
total degree between 1 and `d`. -/
def poly_feature_count (n d : Nat) : Nat :=
  ((exponent_vectors n d).filter fun v => decide (v.sum ≠ 0)).length

/-- One monomial name the way `get_feature_names_out` renders it ("x0 x1^2"). -/
def monomial_name (inputs : List String) (v : List Nat) : String :=
  String.intercalate " "
    (((inputs.zip v).filter fun p => decide (p.2 ≠ 0)).map fun p =>
      if p.2 = 1 then p.1 else p.1 ++ "^" ++ toString p.2)

/-- `PolynomialFeatures.get_feature_names_out(input_features)`: raises ValueError
unless the given name list has exactly `n_features_in_` entries (the input width
the fitted step saw); otherwise returns one name per output monomial. -/
def get_feature_names_out (nFeaturesIn degree : Nat) (input_features : List String) :
    Except String (List String) :=
  if input_features.length = nFeaturesIn then
    Except.ok (((exponent_vectors nFeaturesIn degree).filter
        fun v => decide (v.sum ≠ 0)).map (monomial_name input_features))
  else
    Except.error "ValueError: input_features should have length equal to number of features"

/-- The width of the preprocessor's output: one scaled column per numeric column,
then one indicator column per fitted category of each categorical column; this is
the input width the polynomial step is fitted on. -/
def preprocessor_out_width (nNum : Nat) (catCategories : List (List String)) : Nat :=
  nNum + (catCategories.map List.length).sum

/-- `sort_values(by='importance', ascending=False)`: a stable descending sort on
the importance entry. -/
def sort_values_desc (l : List (String × ℚ)) : List (String × ℚ) :=
  l.mergeSort fun a b => decide (b.2 ≤ a.2)

/-- Lines 106-110: the selected estimator's coefficients are joined with
`get_feature_names_out(num_cols)` — the raw numeric column names, not the
preprocessor's expanded output names — into a dataframe (whose construction itself
needs both columns to have equal length) and sorted by importance. -/
def feature_importance_report (coef : List ℚ) (numColNames : List String)
    (nFeaturesIn degree : Nat) : Except String (List (String × ℚ)) :=
  match get_feature_names_out nFeaturesIn degree numColNames with
  | Except.error e => Except.error e
  | Except.ok names =>
    if names.length = coef.length then
      Except.ok (sort_values_desc (names.zip coef))
    else Except.error "ValueError: All arrays must be of the same length"

/-- C3 counterexample: a selected configuration with one numeric column and one
categorical column of two fitted categories (polynomial input width 3, degree 1,
three coefficients): the name lookup is handed the single numeric column name,
its length check against the fitted width fails, and the join raises instead of
producing a table. -/
theorem C3_counterexample :
    ([2, 1, 5] : List ℚ).length =
        poly_feature_count (preprocessor_out_width 1 [["a", "b"]]) 1 ∧
      feature_importance_report [2, 1, 5] ["yr"]
          (preprocessor_out_width 1 [["a", "b"]]) 1 =
        Except.error
          "ValueError: input_features should have length equal to number of features" :=
  ⟨by decide, rfl⟩

/-- C3 (amended): when the classifier found no categorical columns — so the
polynomial step's input width equals the number of numeric columns — the join
succeeds and yields a table with exactly one name per coefficient, sorted by
descending importance; with any categorical column present the name lookup raises
a length-mismatch ValueError, as the counterexample shows. -/
theorem C3_join_succeeds_without_categoricals (numColNames : List String)
    (degree : Nat) (coef : List ℚ)
    (hc : coef.length = poly_feature_count numColNames.length degree) :
    ∃ table,
      feature_importance_report coef numColNames
          (preprocessor_out_width numColNames.length []) degree = Except.ok table ∧
        table.length = coef.length ∧
        List.Pairwise (fun a b : String × ℚ => b.2 ≤ a.2) table := by
  have hw : preprocessor_out_width numColNames.length [] = numColNames.length := by
    simp [preprocessor_out_width]
  rw [hw]
  have hnames :
      get_feature_names_out numColNames.length degree numColNames =
        Except.ok (((exponent_vectors numColNames.length degree).filter
          fun v => decide (v.sum ≠ 0)).map (monomial_name numColNames)) := by
    unfold get_feature_names_out
    rw [if_pos rfl]
  have hlen :
      (((exponent_vectors numColNames.length degree).filter
        fun v => decide (v.sum ≠ 0)).map (monomial_name numColNames)).length =
        coef.length := by
    rw [List.length_map, hc]
    rfl
  refine ⟨sort_values_desc ((((exponent_vectors numColNames.length degree).filter
      fun v => decide (v.sum ≠ 0)).map (monomial_name numColNames)).zip coef),
    ?_, ?_, ?_⟩
  · unfold feature_importance_report
    rw [hnames]
    dsimp only
    rw [if_pos hlen]
  · show (sort_values_desc _).length = _
    unfold sort_values_desc
    rw [List.length_mergeSort, List.length_zip, hlen]
    exact min_self _
  · have hsorted := @List.sorted_mergeSort (String × ℚ)
      (fun a b => decide (b.2 ≤ a.2))
      (fun a b c h1 h2 => by
        simp only [decide_eq_true_eq] at h1 h2 ⊢
        exact h2.trans h1)
      (fun a b => by
        simp only [Bool.or_eq_true, decide_eq_true_eq]
        exact le_total b.2 a.2)
      ((((exponent_vectors numColNames.length degree).filter
        fun v => decide (v.sum ≠ 0)).map (monomial_name numColNames)).zip coef)
    exact hsorted.imp fun h => of_decide_eq_true h

/-- Witness for `C3_join_succeeds_without_categoricals` at two numeric columns,
degree 1 and two coefficients. -/
theorem C3_join_witness :
    ([3, 7] : List ℚ).length = poly_feature_count (["yr", "mo"] : List String).length 1 ∧
      ∃ table,
        feature_importance_report [3, 7] ["yr", "mo"]
            (preprocessor_out_width (["yr", "mo"] : List String).length []) 1 =
          Except.ok table ∧
          table.length = ([3, 7] : List ℚ).length ∧
          List.Pairwise (fun a b : String × ℚ => b.2 ≤ a.2) table :=
  ⟨by decide, C3_join_succeeds_without_categoricals ["yr", "mo"] 1 [3, 7] (by decide)⟩

end PowerConsumption
